import Mathlib

/-
  Verification development for the waswolf Discord werewolf bot.

  The definitions below are a shallow embedding of the bot's core:
  the `statemachines` combinator library (Next / WithState / WithLazyState /
  Chained), the concrete werewolf round state machine, the state-machine
  registry with its per-guild reservation map, and the role distribution
  algorithm.

  Modelling conventions:
  * Asynchronous Rust methods become pure Lean functions; `&mut self`
    becomes explicit state passing (the function returns the new state).
  * A Rust panic (`unwrap`, `unreachable`, out-of-bounds `Vec::remove`,
    `gen_range` on an empty range) is modelled by an `Option` result,
    with `none` standing for the panic.
  * Discord / storage collaborator calls are abstracted into function
    parameters so theorems can quantify over their outcomes.
  * Discord ids (UserId, GuildId, MessageId, ChannelId) are `Nat`.
-/

/-! ### Generic association-list helpers (model of BTreeMap with unique keys) -/

def lookupKey {α : Type} (m : List (Nat × α)) (k : Nat) : Option α :=
  (m.find? (fun p => p.1 == k)).map (fun p => p.2)

def containsKey {α : Type} (m : List (Nat × α)) (k : Nat) : Bool :=
  m.any (fun p => p.1 == k)

def removeKey {α : Type} (m : List (Nat × α)) (k : Nat) : List (Nat × α) :=
  m.filter (fun p => p.1 != k)

def insertKey {α : Type} (m : List (Nat × α)) (k : Nat) (v : α) : List (Nat × α) :=
  removeKey m k ++ [(k, v)]

/-- `Vec::pop`: removes and returns the last element. -/
def listPop {α : Type} (l : List α) : Option (α × List α) :=
  match l.getLast? with
  | none => none
  | some x => some (x, l.dropLast)

/-- `Vec::remove(i)`: removes and returns the element at index `i`;
`none` models the panic when the index is out of bounds. -/
def listRemoveAt {α : Type} (l : List α) (i : Nat) : Option (α × List α) :=
  match l[i]? with
  | none => none
  | some x => some (x, l.eraseIdx i)

/-- The Rust range `a..b` as the list of values it iterates over
(empty whenever `b ≤ a`). -/
def rustRange (a b : Nat) : List Nat :=
  List.range' a (b - a)

/-- Runs a list of transition calls in sequence, collecting the results;
`none` propagates a panic. -/
def runSeq {σ R : Type} (calls : List (σ → Option (R × σ))) (sm : σ) :
    Option (List R × σ) :=
  match calls with
  | [] => some ([], sm)
  | c :: rest =>
    match c sm with
    | none => none
    | some (r, sm') =>
      match runSeq rest sm' with
      | none => none
      | some (rs, sf) => some (r :: rs, sf)

/-! ### The `statemachines` crate

`TransitionResult`, `Next`, `WithState`, `WithLazyState`, `Chained`
(src/statemachines/src).  Every `transition` method takes the wrapped
transition function explicitly (the Rust closure stored in the struct),
so that theorems can quantify over it; a transition function returning
`none` models its body panicking. -/

inductive TransitionResult (N E : Type) where
  | NoTransition
  | Done (val : N)
  | Error (e : E)
deriving DecidableEq

def TransitionResult.isTerminal {N E : Type} : TransitionResult N E → Bool
  | .NoTransition => false
  | .Done _ => true
  | .Error _ => true

/-- `Next` (next.rs): wraps one transition function and latches its
`Done`/`Error` outcome in `done`. -/
structure Next (N E : Type) where
  done : Option (TransitionResult N E)
deriving DecidableEq

def Next.transition {A C N E : Type}
    (transition_fn : C → A → Option (TransitionResult N E))
    (sm : Next N E) (context : C) (arguments : A) :
    Option (TransitionResult N E × Next N E) :=
  match sm.done with
  | some prev_result => some (prev_result, sm)
  | none =>
    match transition_fn context arguments with
    | none => none
    | some result =>
      match result with
      | .Done val => some (.Done val, { done := some (.Done val) })
      | .Error e => some (.Error e, { done := some (.Error e) })
      | .NoTransition => some (.NoTransition, sm)

/-- `WithState` (withstate.rs): like `Next` but threads a mutable piece of
state through the transition function on every call. -/
structure WithState (S N E : Type) where
  state : Option S
  done : Option (TransitionResult N E)

def WithState.new {S N E : Type} (inital_state : S) : WithState S N E :=
  { state := some inital_state, done := none }

def WithState.transition {A C S N E : Type}
    (transition_fn : C → S → A → Option (TransitionResult N E × S))
    (sm : WithState S N E) (context : C) (arguments : A) :
    Option (TransitionResult N E × WithState S N E) :=
  match sm.done with
  | some prev_result => some (prev_result, sm)
  | none =>
    match sm.state with
    | none => none
    | some inner_state =>
      match transition_fn context inner_state arguments with
      | none => none
      | some (result, new_state) =>
        let sm1 : WithState S N E := { sm with state := some new_state }
        match result with
        | .Done val => some (.Done val, { sm1 with done := some (.Done val) })
        | .Error e => some (.Error e, { sm1 with done := some (.Error e) })
        | .NoTransition => some (.NoTransition, sm1)

/-- `WithLazyState` (withlazystate.rs): the initial state is derived from
the first stimulus; note that in the source the lazy initialisation runs
before the `done` check. -/
structure WithLazyState (S N E : Type) where
  state : Option S
  done : Option (TransitionResult N E)

def WithLazyState.new {S N E : Type} : WithLazyState S N E :=
  { state := none, done := none }

def WithLazyState.transition {A C S N E : Type}
    (init_fn : A → S)
    (transition_fn : C → S → A → Option (TransitionResult N E × S))
    (sm : WithLazyState S N E) (context : C) (arguments : A) :
    Option (TransitionResult N E × WithLazyState S N E) :=
  let sm0 : WithLazyState S N E :=
    match sm.state with
    | none => { sm with state := some (init_fn arguments) }
    | some _ => sm
  match sm0.done with
  | some prev_result => some (prev_result, sm0)
  | none =>
    match sm0.state with
    | none => none
    | some inner_state =>
      match transition_fn context inner_state arguments with
      | none => none
      | some (result, new_state) =>
        let sm1 : WithLazyState S N E := { sm0 with state := some new_state }
        match result with
        | .Done val => some (.Done val, { sm1 with done := some (.Done val) })
        | .Error e => some (.Error e, { sm1 with done := some (.Error e) })
        | .NoTransition => some (.NoTransition, sm1)

/-- `StateResult` (chained.rs). -/
inductive StateResult (FR SR : Type) where
  | Empty
  | First (r : FR)
  | Second (r : SR)
deriving DecidableEq

/-- `Chained` (chained.rs): sequences two transitions; `σF`/`σS` are the
states of the two sub-machines, their transition logic is passed as the
`first_fn`/`second_fn` parameters of `Chained.transition`. -/
structure Chained (σF σS M N E : Type) where
  first : σF
  second : σS
  result : StateResult (TransitionResult M E) (TransitionResult N E)

def Chained.new {σF σS M N E : Type} (first : σF) (second : σS) :
    Chained σF σS M N E :=
  { first := first, second := second, result := .Empty }

def Chained.transition {A C σF σS M N E : Type}
    (first_fn : C → A → σF → Option (TransitionResult M E × σF))
    (second_fn : C → M → σS → Option (TransitionResult N E × σS))
    (sm : Chained σF σS M N E) (context : C) (arguments : A) :
    Option (TransitionResult N E × Chained σF σS M N E) :=
  match sm.result with
  | .Empty =>
    match first_fn context arguments sm.first with
    | none => none
    | some (result, first') =>
      match result with
      | .NoTransition => some (.NoTransition, { sm with first := first' })
      | .Done mid =>
        some (.NoTransition,
          { sm with first := first', result := .First (.Done mid) })
      | .Error e =>
        some (.Error e,
          { sm with first := first', result := .First (.Error e) })
  | .First first_res =>
    match first_res with
    | .Done intermediate =>
      match second_fn context intermediate sm.second with
      | none => none
      | some (result, second') =>
        match result with
        | .NoTransition => some (.NoTransition, { sm with second := second' })
        | .Done val =>
          some (.Done val,
            { sm with second := second', result := .Second (.Done val) })
        | .Error e =>
          some (.Error e,
            { sm with second := second', result := .Second (.Error e) })
    | .Error e => some (.Error e, sm)
    | .NoTransition => none
  | .Second second_res => some (second_res, sm)

/-! ### Bot-side event and error model (src/src/reactions.rs, src/src/messages/traits.rs) -/

/-- `Reactions` (reactions.rs). -/
inductive Reactions where
  | Entry
  | ModEntry
  | Confirm
  | Stop
  | NextPage
  | PreviousPage
  | Custom (val : String)
deriving DecidableEq

def Reactions.to_str : Reactions → String
  | .Entry => "✅"
  | .ModEntry => "🇲"
  | .Confirm => "🆗"
  | .Stop => "🛑"
  | .NextPage => "👉"
  | .PreviousPage => "👈"
  | .Custom val => val

/-- A platform reaction; the source unwraps the optional user id, which
the event handlers guarantee to be present, and compares the emoji as a
unicode string (`Reactions: PartialEq<ReactionType>`). -/
structure Reaction where
  user_id : Nat
  emoji : String
deriving DecidableEq

/-- A reply message; only the author id and the textual content are read
by the core. -/
structure Message where
  author : Nat
  content : String
deriving DecidableEq

/-- `Event` (messages/traits.rs). -/
inductive Event where
  | Notify
  | AddReaction (reaction : Reaction)
  | RemoveReaction (reaction : Reaction)
  | Reply (message : Message)
deriving DecidableEq

/-- `Context` (messages/traits.rs); the messaging/storage capability
handles are abstracted into explicit function parameters of the
transition closures, so only the event and guild id remain. -/
structure Context where
  event : Option Event
  guild_id : Nat
deriving DecidableEq

/-- `TransitionError` (messages/traits.rs); the `Generic` payload is an
opaque displayable cause, modelled as its display string. -/
inductive TransitionError where
  | Serenity
  | Generic (cause : String)
  | WithReason (reason : String)
deriving DecidableEq

/-! ### Role configuration and distribution (src/src/roles/distribute.rs)

The module defining `WereWolfRoleConfig`, `WereWolfRoleInstance` and
`to_instance` is not under src (only its callers are), so those three are
modelled from the spec.  `distribute` itself is translated from
src/src/roles/distribute.rs. -/

/-- Modelled from the spec: `WereWolfRoleConfig` is missing from src;
spec §3 RoleConfig — name (unique per group), emoji (unique per group),
multiplayer flag, masks-role flag, list of extra channel names; equality
and ordering by name. -/
structure WereWolfRoleConfig where
  name : String
  emoji : String
  multi_player : Bool
  masks_role : Bool
  channels : List String
deriving DecidableEq

/-- Modelled from the spec: `WereWolfRoleInstance` is missing from src;
spec §3 RoleInstance — name, nested instance present iff the config masks
a role, resolved channel-name list. -/
inductive WereWolfRoleInstance where
  | leaf (name : String) (channels : List String)
  | masked (name : String) (inner : WereWolfRoleInstance) (channels : List String)
deriving DecidableEq

def WereWolfRoleInstance.name : WereWolfRoleInstance → String
  | .leaf n _ => n
  | .masked n _ _ => n

/-- A uniform RNG: an abstract stream of naturals plus a cursor. -/
structure Rng where
  seq : Nat → Nat
  idx : Nat

/-- `rand::Rng::gen_range(lo..hi)`; `none` models the panic on an empty
range. -/
def Rng.genRange (r : Rng) (lo hi : Nat) : Option (Nat × Rng) :=
  if hi ≤ lo then none
  else some (lo + r.seq r.idx % (hi - lo), { r with idx := r.idx + 1 })

/-- Modelled from the spec: `to_instance` is missing from src; spec §4.2
and §4.4 — a masking config draws one uniformly random occurrence from the
(non-masking) pool, removes it, resolves it in turn, and nests it; the
channel list is the own name, the masked role's name (if any), and the
extra channel names. -/
def to_instance (cfg : WereWolfRoleConfig) (pool : List WereWolfRoleConfig)
    (rng : Rng) : Option (WereWolfRoleInstance × List WereWolfRoleConfig × Rng) :=
  if cfg.masks_role then
    match rng.genRange 0 pool.length with
    | none => none
    | some (index, rng') =>
      match h : listRemoveAt pool index with
      | none => none
      | some (other, pool') =>
        match to_instance other pool' rng' with
        | none => none
        | some (inner, pool'', rng'') =>
          some (.masked cfg.name inner (cfg.name :: inner.name :: cfg.channels),
            pool'', rng'')
  else
    some (.leaf cfg.name (cfg.name :: cfg.channels), pool, rng)
termination_by pool.length
decreasing_by
  simp only [listRemoveAt] at h
  rcases h2 : pool[index]? with _ | x
  · rw [h2] at h; cases h
  · rw [h2] at h
    cases h
    have hlt : index < pool.length := by
      by_contra hge
      rw [List.getElem?_eq_none (Nat.le_of_not_lt hge)] at h2
      cases h2
    calc (pool.eraseIdx index).length = pool.length - 1 := by
          rw [List.length_eraseIdx]; simp [hlt]
      _ < pool.length := by omega

/-- `DistributeError` (distribute.rs). -/
inductive DistributeError where
  | MismatchedCount (available_roles : Nat) (player_count : Nat)
  | TooManyMaskedRoles (masking_roles : Nat) (normal_roles : Nat)
deriving DecidableEq

/-- The loop state threaded through `distribute`'s two assignment loops. -/
structure DistState where
  nested_roles : List WereWolfRoleConfig
  non_nested_roles : List WereWolfRoleConfig
  participants : List Nat
  result : List (Nat × WereWolfRoleInstance)
  rng : Rng

/-- Body of the first assignment loop of `distribute` (masking roles). -/
def distributeLoop1Body (st : DistState) (nested_roles_remaining : Nat) :
    Option DistState :=
  match st.rng.genRange 0 nested_roles_remaining with
  | none => none
  | some (index, rng1) =>
    match listRemoveAt st.nested_roles index with
    | none => none
    | some (nested_role, nested') =>
      match listPop st.participants with
      | none => none
      | some (user, participants') =>
        match to_instance nested_role st.non_nested_roles rng1 with
        | none => none
        | some (inst, non_nested', rng2) =>
          some { nested_roles := nested', non_nested_roles := non_nested',
                 participants := participants',
                 result := insertKey st.result user inst, rng := rng2 }

/-- Body of the second assignment loop of `distribute` (plain roles). -/
def distributeLoop2Body (st : DistState) (r_remaining : Nat) :
    Option DistState :=
  match st.rng.genRange 0 r_remaining with
  | none => none
  | some (index, rng1) =>
    match listRemoveAt st.non_nested_roles index with
    | none => none
    | some (role, non_nested') =>
      match listPop st.participants with
      | none => none
      | some (user, participants') =>
        match to_instance role non_nested' rng1 with
        | none => none
        | some (inst, non_nested'', rng2) =>
          some { nested_roles := st.nested_roles,
                 non_nested_roles := non_nested'',
                 participants := participants',
                 result := insertKey st.result user inst, rng := rng2 }

/-- `distribute` (distribute.rs).  The role map is a list of
(config, headcount) pairs in key order; the assignment loops iterate the
Rust ranges `nested_roles.len()..0` and `non_nested_roles.len()..0`
exactly as written in the source. -/
def distribute (participants : List Nat)
    (roles : List (WereWolfRoleConfig × Nat)) (rng : Rng) :
    Option (Except DistributeError (List (Nat × WereWolfRoleInstance))) :=
  let nested_roles :=
    (roles.filter (fun rc => rc.1.masks_role)).flatMap
      (fun rc => List.replicate rc.2 rc.1)
  let non_nested_roles :=
    (roles.filter (fun rc => !rc.1.masks_role)).flatMap
      (fun rc => List.replicate rc.2 rc.1)
  if non_nested_roles.length ≠ participants.length then
    some (.error (.MismatchedCount non_nested_roles.length participants.length))
  else if nested_roles.length > non_nested_roles.length then
    some (.error (.TooManyMaskedRoles nested_roles.length non_nested_roles.length))
  else
    match (rustRange nested_roles.length 0).foldlM distributeLoop1Body
        { nested_roles := nested_roles, non_nested_roles := non_nested_roles,
          participants := participants, result := [], rng := rng } with
    | none => none
    | some st1 =>
      match (rustRange st1.non_nested_roles.length 0).foldlM
          distributeLoop2Body st1 with
      | none => none
      | some st2 => some (.ok st2.result)

/-- The flattened non-masking occurrence count used by `distribute`. -/
def nonNestedCount (roles : List (WereWolfRoleConfig × Nat)) : Nat :=
  ((roles.filter (fun rc => !rc.1.masks_role)).flatMap
    (fun rc => List.replicate rc.2 rc.1)).length

/-- The flattened masking occurrence count used by `distribute`. -/
def nestedCount (roles : List (WereWolfRoleConfig × Nat)) : Nat :=
  ((roles.filter (fun rc => rc.1.masks_role)).flatMap
    (fun rc => List.replicate rc.2 rc.1)).length

/-! ### Role-selection pagination (src/src/roles/cfg_reactions.rs)

A role enters `reactions` only through `to_emoji`, so the role list is
represented by the list of the roles' emoji strings. -/

def MAX_REACTIONS : Nat := 17

/-- `is_last_page` (cfg_reactions.rs). -/
def is_last_page (role_count page : Nat) : Bool :=
  if role_count = 0 then true
  else decide ((role_count - 1) / MAX_REACTIONS ≤ page)

/-- The `for raw_index in 0..MAX_REACTIONS` loop of `reactions`,
with its early `break` on the first missing index; `remaining` counts the
loop iterations still to run. -/
def rolePageLoop (roles : List String) (page raw_index remaining : Nat) :
    List Reactions :=
  match remaining with
  | 0 => []
  | rem + 1 =>
    match roles[raw_index + page * MAX_REACTIONS]? with
    | none => []
    | some role => .Custom role :: rolePageLoop roles page (raw_index + 1) rem

/-- `reactions` (cfg_reactions.rs). -/
def reactions (roles : List String) (page : Nat) : List Reactions :=
  let result : List Reactions := []
  let result := if page > 0 then result ++ [.PreviousPage] else result
  let result := result ++ rolePageLoop roles page 0 MAX_REACTIONS
  let result := if !is_last_page roles.length page then result ++ [.NextPage]
                else result
  result ++ [.Confirm]

/-! ### The werewolf round state machine (src/src/commands/werewolf/sm.rs)

The per-phase transition closures are embedded as pure functions; the
Discord and storage calls they make are abstracted into function
parameters (`loadRoles`, `mkSelect`, `updateMsg`, `mkRoleCounts`,
`mkRunning`, `stopRound`, `createRoleSM`). -/

/-- `StateMessage` (sm.rs). -/
structure StateMessage where
  guild_id : Nat
  channel_id : Nat
  message_id : Nat
deriving DecidableEq

/-- `GeneralWerewolfState` (sm.rs); `mods` is the moderator user-id set. -/
structure GeneralWerewolfState (C : Type) where
  mods : List Nat
  message : StateMessage
  bot_user : Nat
  inner : C
deriving DecidableEq

/-- `RegisterPlayers` (sm.rs). -/
structure RegisterPlayers where
  players : List Nat
deriving DecidableEq

/-- `SelectRoles` (sm.rs); `selected_roles` is a `BTreeSet` keyed by
role name, modelled as a duplicate-free list. -/
structure SelectRoles where
  players : List Nat
  all_roles : List WereWolfRoleConfig
  role_page : Nat
  selected_roles : List WereWolfRoleConfig
deriving DecidableEq

/-- `RoleCounts` (sm.rs); `roles` is a `BTreeMap` keyed by role name,
`role_messages` a `BTreeSet` keyed by role name, and `count_queue` the
shared FIFO `SegQueue` (push at the tail, pop at the head). -/
structure RoleCounts where
  players : List Nat
  roles : List (WereWolfRoleConfig × Nat)
  role_messages : List WereWolfRoleConfig
  count_queue : List (WereWolfRoleConfig × Nat)
deriving DecidableEq

/-- `Running` (sm.rs). -/
structure Running where
  players : List (Nat × WereWolfRoleInstance)
  moderator_channel : Nat
  channels : List (String × Nat)
deriving DecidableEq

/-- `BTreeSet<WereWolfRoleConfig>::insert`: keyed by role name. -/
def setInsertRole (s : List WereWolfRoleConfig) (r : WereWolfRoleConfig) :
    List WereWolfRoleConfig :=
  if s.any (fun x => x.name == r.name) then s else s ++ [r]

/-- `BTreeSet<WereWolfRoleConfig>::remove`: keyed by role name. -/
def setRemoveRole (s : List WereWolfRoleConfig) (r : WereWolfRoleConfig) :
    List WereWolfRoleConfig :=
  s.filter (fun x => x.name != r.name)

/-- `BTreeMap<WereWolfRoleConfig, usize>::insert`: keyed by role name. -/
def insertRoleCount (m : List (WereWolfRoleConfig × Nat))
    (r : WereWolfRoleConfig) (count : Nat) : List (WereWolfRoleConfig × Nat) :=
  m.filter (fun p => p.1.name != r.name) ++ [(r, count)]

/-- The `RemoveReaction` handling of the RegisterPlayers closure: find the
first index whose id equals the reacting user and remove it. -/
def removeFirstPlayer (players : List Nat) (user_id : Nat) : List Nat :=
  match players.findIdx? (fun id => id == user_id) with
  | some index => players.eraseIdx index
  | none => players

/-- `str::parse::<usize>` on a reply body, as used by the role-count
sub-machine: all-digit non-empty content parses to the number (the model
reads the string's character list directly, which matches `parse` on the
digit strings the bot accepts). -/
def parseNat (s : String) : Option Nat :=
  if s.data ≠ [] ∧ s.data.all (fun c => c.isDigit) then
    some (s.data.foldl (fun n c => n * 10 + (c.toNat - 48)) 0)
  else none

/-- `GeneralWerewolfState<SelectRoles>::find_role` (sm.rs). -/
def SelectRoles.find_role (state : GeneralWerewolfState SelectRoles)
    (emoji : String) : Option WereWolfRoleConfig :=
  state.inner.all_roles.find? (fun r => r.emoji == emoji)

/-- The RegisterPlayers transition closure from `create` (sm.rs).
`loadRoles` models `storage.load_roles(..).unwrap()` (`none` = storage
error, which the source unwraps into a panic); `mkSelect` models
`SelectRolesState::from_first` (posting the role-selection message). -/
def registerPlayersTransition
    (loadRoles : Option (List WereWolfRoleConfig))
    (mkSelect : GeneralWerewolfState RegisterPlayers →
      List WereWolfRoleConfig → Except Unit (GeneralWerewolfState SelectRoles))
    (context : Context) (state : GeneralWerewolfState RegisterPlayers) :
    Option (TransitionResult (GeneralWerewolfState SelectRoles) TransitionError
      × GeneralWerewolfState RegisterPlayers) :=
  match context.event with
  | some (.AddReaction reaction) =>
    let user_id := reaction.user_id
    let emoji := reaction.emoji
    if Reactions.Entry.to_str == emoji then
      some (.NoTransition,
        { state with inner := { players := state.inner.players ++ [user_id] } })
    else if Reactions.Confirm.to_str == emoji then
      if !state.mods.contains user_id then
        some (.NoTransition, state)
      else if state.inner.players.isEmpty then
        some (.NoTransition, state)
      else
        match loadRoles with
        | none => none
        | some roles =>
          match mkSelect state roles with
          | .ok next_state => some (.Done next_state, state)
          | .error _ => some (.Error .Serenity, state)
    else
      some (.NoTransition, state)
  | some (.RemoveReaction reaction) =>
    if Reactions.Entry.to_str == reaction.emoji then
      some (.NoTransition,
        { state with inner :=
          { players := removeFirstPlayer state.inner.players reaction.user_id } })
    else
      some (.NoTransition, state)
  | _ => some (.NoTransition, state)

/-- The SelectRoles transition closure from `create` (sm.rs).
`updateMsg` models `update_msg` (its failure is only logged);
`mkRoleCounts` models `RoleCountsState::new`.  The page decrement uses
truncated `Nat` subtraction in place of the source's unchecked `usize`
arithmetic. -/
def selectRolesTransition
    (updateMsg : GeneralWerewolfState SelectRoles → Except Unit Unit)
    (mkRoleCounts : GeneralWerewolfState SelectRoles →
      Except Unit (GeneralWerewolfState RoleCounts))
    (context : Context) (state : GeneralWerewolfState SelectRoles) :
    Option (TransitionResult (GeneralWerewolfState RoleCounts) TransitionError
      × GeneralWerewolfState SelectRoles) :=
  match context.event with
  | some (.AddReaction reaction) =>
    let user_id := reaction.user_id
    if !state.mods.contains user_id then
      some (.NoTransition, state)
    else
      let emoji := reaction.emoji
      if Reactions.PreviousPage.to_str == emoji then
        let state :=
          { state with inner :=
            { state.inner with role_page := state.inner.role_page - 1 } }
        let _ := updateMsg state
        some (.NoTransition, state)
      else if Reactions.NextPage.to_str == emoji then
        let state :=
          { state with inner :=
            { state.inner with role_page := state.inner.role_page + 1 } }
        let _ := updateMsg state
        some (.NoTransition, state)
      else if Reactions.Confirm.to_str == emoji then
        match mkRoleCounts state with
        | .ok next_state => some (.Done next_state, state)
        | .error _ => some (.Error .Serenity, state)
      else
        match SelectRoles.find_role state emoji with
        | some role =>
          some (.NoTransition,
            { state with inner :=
              { state.inner with
                selected_roles := setInsertRole state.inner.selected_roles role } })
        | none => some (.NoTransition, state)
  | some (.RemoveReaction reaction) =>
    if !state.mods.contains reaction.user_id then
      some (.NoTransition, state)
    else
      match SelectRoles.find_role state reaction.emoji with
      | some role =>
        some (.NoTransition,
          { state with inner :=
            { state.inner with
              selected_roles := setRemoveRole state.inner.selected_roles role } })
      | none => some (.NoTransition, state)
  | _ => some (.NoTransition, state)

/-- `GeneralWerewolfState<RoleCounts>::new` (sm.rs): multiplayer roles get
a side-question sub-machine and enter the pending set `role_messages`,
other selected roles default to headcount 1.  `createRoleSM` models
`create_role_sm` (posting the side question; `.error` aborts `new`).  The
returned `Bool` records whether a `Notify` was enqueued immediately
(pending set empty on entry). -/
def roleCountsLoop (createRoleSM : WereWolfRoleConfig → Except Unit Unit) :
    List WereWolfRoleConfig →
    List (WereWolfRoleConfig × Nat) × List WereWolfRoleConfig →
    Except Unit (List (WereWolfRoleConfig × Nat) × List WereWolfRoleConfig)
  | [], acc => .ok acc
  | role :: rest, acc =>
    if role.multi_player then
      match createRoleSM role with
      | .error e => .error e
      | .ok _ =>
        roleCountsLoop createRoleSM rest (acc.1, setInsertRole acc.2 role)
    else
      roleCountsLoop createRoleSM rest (insertRoleCount acc.1 role 1, acc.2)

def roleCountsNew (createRoleSM : WereWolfRoleConfig → Except Unit Unit)
    (previous : GeneralWerewolfState SelectRoles) :
    Except Unit (GeneralWerewolfState RoleCounts × Bool) :=
  match roleCountsLoop createRoleSM previous.inner.selected_roles ([], []) with
  | .error e => .error e
  | .ok (roles, role_messages) =>
    .ok ({ mods := previous.mods, message := previous.message,
           bot_user := previous.bot_user,
           inner := { players := previous.inner.players, roles := roles,
                      role_messages := role_messages, count_queue := [] } },
         role_messages.isEmpty)

/-- The RoleCounts transition closure from `create` (sm.rs): on `Notify`,
if the pending set is empty transition to Running; otherwise pop one
resolved (role, count) pair from the shared queue, record it, and
transition once the pending set drains.  `mkRunning` models
`RunningState::new` (round setup; fallible). -/
def roleCountsTransition
    (mkRunning : GeneralWerewolfState RoleCounts →
      Except String (GeneralWerewolfState Running))
    (context : Context) (state : GeneralWerewolfState RoleCounts) :
    TransitionResult (GeneralWerewolfState Running) TransitionError
      × GeneralWerewolfState RoleCounts :=
  match context.event with
  | some .Notify =>
    if state.inner.role_messages.isEmpty then
      match mkRunning state with
      | .ok n_state => (.Done n_state, state)
      | .error e => (.Error (.Generic e), state)
    else
      match state.inner.count_queue with
      | [] => (.NoTransition, state)
      | (role, count) :: rest =>
        let state :=
          { state with inner :=
            { state.inner with
              role_messages := setRemoveRole state.inner.role_messages role,
              roles := insertRoleCount state.inner.roles role count,
              count_queue := rest } }
        if state.inner.role_messages.isEmpty then
          match mkRunning state with
          | .ok n_state => (.Done n_state, state)
          | .error e => (.Error (.Generic e), state)
        else
          (.NoTransition, state)
  | _ => (.NoTransition, state)

/-- The Running transition closure from `create` (sm.rs): a moderator's
`Stop` reaction tears the round down and completes the machine.
`stopRound` models the role lookups, `rounds::stop::stop` and the final
message edit (`none` = panic in one of the unwraps). -/
def runningTransition
    (stopRound : GeneralWerewolfState Running → Option Unit)
    (context : Context) (state : GeneralWerewolfState Running) :
    Option (TransitionResult Unit TransitionError
      × GeneralWerewolfState Running) :=
  match context.event with
  | some (.AddReaction reaction) =>
    if !state.mods.contains reaction.user_id then
      some (.NoTransition, state)
    else if Reactions.Stop.to_str == reaction.emoji then
      match stopRound state with
      | none => none
      | some _ => some (.Done (), state)
    else
      some (.NoTransition, state)
  | _ => some (.NoTransition, state)

/-- `RoleCountState` (sm.rs): the state of a per-role side-question
sub-machine; the shared `count_queue` is threaded separately through
`roleReplyTransition`. -/
structure RoleCountState where
  channel_id : Nat
  current_msg_id : Nat
  round_msg_id : Nat
  round_guild_id : Nat
  round_mods : List Nat
  role : WereWolfRoleConfig
deriving DecidableEq

/-- The closure of `create_role_sm` (sm.rs): a moderator reply parsed as a
number resolves the side question, pushes (role, count) onto the shared
queue and enqueues a `Notify` for the round machine.  Returns the
transition result, the sub-machine state, the updated shared queue, and
whether a `Notify` was enqueued. -/
def roleReplyTransition (context : Context) (state : RoleCountState)
    (count_queue : List (WereWolfRoleConfig × Nat)) :
    TransitionResult Unit TransitionError × RoleCountState
      × List (WereWolfRoleConfig × Nat) × Bool :=
  match context.event with
  | some (.Reply message) =>
    if !state.round_mods.contains message.author then
      (.NoTransition, state, count_queue, false)
    else
      match parseNat message.content with
      | none => (.NoTransition, state, count_queue, false)
      | some parsed =>
        (.Done (), state, count_queue ++ [(state.role, parsed)], true)
  | _ => (.NoTransition, state, count_queue, false)

/-- Replaces the shared count queue of a RoleCounts state (the effect of a
sub-machine pushing onto the `Arc<SegQueue>`). -/
def setQueue (state : GeneralWerewolfState RoleCounts)
    (q : List (WereWolfRoleConfig × Nat)) : GeneralWerewolfState RoleCounts :=
  { state with inner := { state.inner with count_queue := q } }

/-! ### The state-machine registry (src/src/sms.rs) -/

/-- `MessageStateMachine` (messages.rs): a machine state `σ` tagged with
its guild and root-message id.  Its transition logic is passed explicitly
as a `step` function where needed. -/
structure MessageStateMachine (σ : Type) where
  guild_id : Nat
  message_id : Nat
  sm : σ
deriving DecidableEq

/-- `StateMachineMap` (sms.rs): message-id → machine, and the per-guild
reservation map `running_rounds` (guild-id → optional message id). -/
structure StateMachineMap (V : Type) where
  map : List (Nat × V)
  running_rounds : List (Nat × Option Nat)
deriving DecidableEq

/-- `StateMachineMap::reserve_running_game` (sms.rs). -/
def reserve_running_game {V : Type} (self : StateMachineMap V) (guild : Nat) :
    Except Unit Unit × StateMachineMap V :=
  if containsKey self.running_rounds guild then
    (.error (), self)
  else
    (.ok (), { self with
      running_rounds := insertKey self.running_rounds guild none })

/-- `StateMachineMap::mark_running_game` (sms.rs). -/
def mark_running_game {V : Type} (self : StateMachineMap V) (guild : Nat)
    (message_id : Nat) : Except Unit Unit × StateMachineMap V :=
  match lookupKey self.running_rounds guild with
  | some _ =>
    (.ok (), { self with
      running_rounds := insertKey self.running_rounds guild (some message_id) })
  | none => (.error (), self)

/-- `StateMachineMap::unmark_running_game` (sms.rs). -/
def unmark_running_game {V : Type} (self : StateMachineMap V) (guild : Nat)
    (message_id : Nat) : StateMachineMap V :=
  match lookupKey self.running_rounds guild with
  | none => self
  | some raw_val =>
    match raw_val with
    | some val =>
      if val == message_id then
        { self with running_rounds := removeKey self.running_rounds guild }
      else self
    | none => self

/-- `StateMachineMap::update_inner` (sms.rs): advance the locked machine
`sm` with the given context; on `Done` or `Error` remove the machine's
map entry and release the guild reservation if it points at this
machine's message id.  `step` is the machine's transition logic; `none`
propagates a panic inside it. -/
def update_inner {V σ C N E : Type}
    (step : C → σ → Option (TransitionResult N E × σ))
    (self : StateMachineMap V) (sm : MessageStateMachine σ)
    (message_id : Nat) (context : C) :
    Option (StateMachineMap V × MessageStateMachine σ) :=
  match step context sm.sm with
  | none => none
  | some (result, sm') =>
    let smOut := { sm with sm := sm' }
    match result with
    | .NoTransition => some (self, smOut)
    | _ =>
      let map' := removeKey self.map message_id
      let guild_id := sm.guild_id
      let msg_id := sm.message_id
      let running' :=
        match lookupKey self.running_rounds guild_id with
        | some running_msg_id =>
          if running_msg_id == some msg_id then
            removeKey self.running_rounds guild_id
          else self.running_rounds
        | none => self.running_rounds
      some ({ map := map', running_rounds := running' }, smOut)

/-! ### Concrete instances used by scenario theorems and witnesses -/

def rng0 : Rng := { seq := fun _ => 0, idx := 0 }

def roleA : WereWolfRoleConfig :=
  { name := "RoleA", emoji := "🅰", multi_player := false,
    masks_role := false, channels := [] }

def roleB : WereWolfRoleConfig :=
  { name := "RoleB", emoji := "🅱", multi_player := false,
    masks_role := false, channels := [] }

def roleWerwolf : WereWolfRoleConfig :=
  { name := "Werwolf", emoji := "🐺", multi_player := true,
    masks_role := false, channels := [] }

def roleVampire : WereWolfRoleConfig :=
  { name := "Vampire", emoji := "🧛", multi_player := true,
    masks_role := false, channels := [] }

def wMessage : StateMessage :=
  { guild_id := 1, channel_id := 2, message_id := 3 }

def c7Prev : GeneralWerewolfState SelectRoles :=
  { mods := [5], message := wMessage, bot_user := 9,
    inner := { players := [11, 12], all_roles := [roleWerwolf, roleVampire],
               role_page := 0,
               selected_roles := [roleWerwolf, roleVampire] } }

def c7Run : GeneralWerewolfState Running :=
  { mods := [5], message := wMessage, bot_user := 9,
    inner := { players := [], moderator_channel := 4, channels := [] } }

def c7Sub : RoleCountState :=
  { channel_id := 2, current_msg_id := 20, round_msg_id := 3,
    round_guild_id := 1, round_mods := [5], role := roleWerwolf }

def c8RP : GeneralWerewolfState RegisterPlayers :=
  { mods := [5], message := wMessage, bot_user := 9,
    inner := { players := [11] } }

def c8Run : GeneralWerewolfState Running :=
  { mods := [5], message := wMessage, bot_user := 9,
    inner := { players := [], moderator_channel := 4, channels := [] } }

def c5Map : StateMachineMap Unit :=
  { map := [(10, ())], running_rounds := [(7, some 10)] }

def c5Machine : MessageStateMachine Unit :=
  { guild_id := 7, message_id := 10, sm := () }

def c5Step : Unit → Unit → Option (TransitionResult Nat Nat × Unit) :=
  fun _ _ => some (.Done 0, ())

def c4fail : Nat → Nat → Nat → Option (TransitionResult Nat Nat × Nat) :=
  fun _ s _ => some (.Error 7, s)

def c4retry : Nat → Nat → Nat → Option (TransitionResult Nat Nat × Nat) :=
  fun _ s _ => some (.Done 1, s)

def c4sm0 : WithState Nat Nat Nat := { state := some 0, done := none }

def c4sm1 : WithState Nat Nat Nat :=
  { state := some 0, done := some (.Error 7) }

def c9Roles : List String :=
  ["e01", "e02", "e03", "e04", "e05", "e06", "e07", "e08", "e09", "e10",
   "e11", "e12", "e13", "e14", "e15", "e16", "e17", "e18", "e19", "e20"]

/-- The two latched shapes of a `Chained` machine: the first transition
errored, or the second transition completed. -/
def Chained.latched {σF σS M N E : Type} (sm : Chained σF σS M N E)
    (r : TransitionResult N E) : Prop :=
  (∃ e, r = .Error e ∧ sm.result = .First (.Error e)) ∨ sm.result = .Second r

/-! ### Helper lemmas -/

theorem runSeq_const {σ R : Type} (r : R) (sm : σ) :
    ∀ calls : List (σ → Option (R × σ)),
      (∀ c ∈ calls, c sm = some (r, sm)) →
      runSeq calls sm = some (List.replicate calls.length r, sm)
  | [], _ => rfl
  | c :: rest, h => by
    have hc : c sm = some (r, sm) := h c (List.mem_cons_self c rest)
    have ih := runSeq_const r sm rest
      (fun c' hc' => h c' (List.mem_cons_of_mem c hc'))
    simp [runSeq, hc, ih, List.replicate]

theorem next_latched_step {A C N E : Type} (sm : Next N E)
    (r : TransitionResult N E) (h : sm.done = some r)
    (f : C → A → Option (TransitionResult N E)) (c : C) (a : A) :
    Next.transition f sm c a = some (r, sm) := by
  simp [Next.transition, h]

theorem next_terminal_latches {A C N E : Type}
    (f : C → A → Option (TransitionResult N E)) (sm : Next N E) (c : C) (a : A)
    (r : TransitionResult N E) (sm' : Next N E)
    (h : Next.transition f sm c a = some (r, sm'))
    (ht : r.isTerminal = true) : sm'.done = some r := by
  cases hdone : sm.done with
  | some prev =>
    simp only [Next.transition, hdone, Option.some.injEq, Prod.mk.injEq] at h
    rw [← h.2, ← h.1, hdone]
  | none =>
    cases hf : f c a with
    | none =>
      simp only [Next.transition, hdone, hf] at h
      exact Option.noConfusion h
    | some result =>
      cases result with
      | NoTransition =>
        simp only [Next.transition, hdone, hf, Option.some.injEq,
          Prod.mk.injEq] at h
        rw [← h.1] at ht
        cases ht
      | Done val =>
        simp only [Next.transition, hdone, hf, Option.some.injEq,
          Prod.mk.injEq] at h
        rw [← h.2, ← h.1]
      | Error e =>
        simp only [Next.transition, hdone, hf, Option.some.injEq,
          Prod.mk.injEq] at h
        rw [← h.2, ← h.1]

theorem withstate_latched_step {A C S N E : Type} (sm : WithState S N E)
    (r : TransitionResult N E) (h : sm.done = some r)
    (f : C → S → A → Option (TransitionResult N E × S)) (c : C) (a : A) :
    WithState.transition f sm c a = some (r, sm) := by
  simp [WithState.transition, h]

theorem withstate_terminal_latches {A C S N E : Type}
    (f : C → S → A → Option (TransitionResult N E × S)) (sm : WithState S N E)
    (c : C) (a : A) (r : TransitionResult N E) (sm' : WithState S N E)
    (h : WithState.transition f sm c a = some (r, sm'))
    (ht : r.isTerminal = true) : sm'.done = some r := by
  cases hdone : sm.done with
  | some prev =>
    simp only [WithState.transition, hdone, Option.some.injEq,
      Prod.mk.injEq] at h
    rw [← h.2, ← h.1, hdone]
  | none =>
    cases hstate : sm.state with
    | none =>
      simp only [WithState.transition, hdone, hstate] at h
      exact Option.noConfusion h
    | some inner_state =>
      cases hf : f c inner_state a with
      | none =>
        simp only [WithState.transition, hdone, hstate, hf] at h
        exact Option.noConfusion h
      | some pair =>
        obtain ⟨result, new_state⟩ := pair
        cases result with
        | NoTransition =>
          simp only [WithState.transition, hdone, hstate, hf,
            Option.some.injEq, Prod.mk.injEq] at h
          rw [← h.1] at ht
          cases ht
        | Done val =>
          simp only [WithState.transition, hdone, hstate, hf,
            Option.some.injEq, Prod.mk.injEq] at h
          rw [← h.2, ← h.1]
        | Error e =>
          simp only [WithState.transition, hdone, hstate, hf,
            Option.some.injEq, Prod.mk.injEq] at h
          rw [← h.2, ← h.1]

theorem withlazystate_latched_step {A C S N E : Type}
    (sm : WithLazyState S N E) (r : TransitionResult N E)
    (h : sm.done = some r) (hs : sm.state.isSome = true)
    (init : A → S) (f : C → S → A → Option (TransitionResult N E × S))
    (c : C) (a : A) :
    WithLazyState.transition init f sm c a = some (r, sm) := by
  obtain ⟨s, hs'⟩ := Option.isSome_iff_exists.mp hs
  simp [WithLazyState.transition, hs', h]

theorem withlazystate_terminal_latches {A C S N E : Type}
    (init : A → S) (f : C → S → A → Option (TransitionResult N E × S))
    (sm : WithLazyState S N E) (c : C) (a : A)
    (r : TransitionResult N E) (sm' : WithLazyState S N E)
    (h : WithLazyState.transition init f sm c a = some (r, sm'))
    (ht : r.isTerminal = true) :
    sm'.done = some r ∧ sm'.state.isSome = true := by
  cases hstate : sm.state with
  | none =>
    cases hdone : sm.done with
    | some prev =>
      simp only [WithLazyState.transition, hstate, hdone, Option.some.injEq,
        Prod.mk.injEq] at h
      rw [← h.2, ← h.1]
      exact ⟨rfl, rfl⟩
    | none =>
      cases hf : f c (init a) a with
      | none =>
        simp only [WithLazyState.transition, hstate, hdone, hf] at h
        exact Option.noConfusion h
      | some pair =>
        obtain ⟨result, new_state⟩ := pair
        cases result with
        | NoTransition =>
          simp only [WithLazyState.transition, hstate, hdone, hf,
            Option.some.injEq, Prod.mk.injEq] at h
          rw [← h.1] at ht
          cases ht
        | Done val =>
          simp only [WithLazyState.transition, hstate, hdone, hf,
            Option.some.injEq, Prod.mk.injEq] at h
          rw [← h.2, ← h.1]
          exact ⟨rfl, rfl⟩
        | Error e =>
          simp only [WithLazyState.transition, hstate, hdone, hf,
            Option.some.injEq, Prod.mk.injEq] at h
          rw [← h.2, ← h.1]
          exact ⟨rfl, rfl⟩
  | some inner_state =>
    cases hdone : sm.done with
    | some prev =>
      simp only [WithLazyState.transition, hstate, hdone, Option.some.injEq,
        Prod.mk.injEq] at h
      rw [← h.2, ← h.1]
      exact ⟨hdone, by rw [hstate]; rfl⟩
    | none =>
      cases hf : f c inner_state a with
      | none =>
        simp only [WithLazyState.transition, hstate, hdone, hf] at h
        exact Option.noConfusion h
      | some pair =>
        obtain ⟨result, new_state⟩ := pair
        cases result with
        | NoTransition =>
          simp only [WithLazyState.transition, hstate, hdone, hf,
            Option.some.injEq, Prod.mk.injEq] at h
          rw [← h.1] at ht
          cases ht
        | Done val =>
          simp only [WithLazyState.transition, hstate, hdone, hf,
            Option.some.injEq, Prod.mk.injEq] at h
          rw [← h.2, ← h.1]
          exact ⟨rfl, rfl⟩
        | Error e =>
          simp only [WithLazyState.transition, hstate, hdone, hf,
            Option.some.injEq, Prod.mk.injEq] at h
          rw [← h.2, ← h.1]
          exact ⟨rfl, rfl⟩

theorem chained_latched_step {A C σF σS M N E : Type}
    (sm : Chained σF σS M N E) (r : TransitionResult N E)
    (h : Chained.latched sm r)
    (first_fn : C → A → σF → Option (TransitionResult M E × σF))
    (second_fn : C → M → σS → Option (TransitionResult N E × σS))
    (c : C) (a : A) :
    Chained.transition first_fn second_fn sm c a = some (r, sm) := by
  rcases h with ⟨e, hr, hres⟩ | hres
  · rw [hr]
    simp [Chained.transition, hres]
  · simp [Chained.transition, hres]

theorem chained_terminal_latches {A C σF σS M N E : Type}
    (first_fn : C → A → σF → Option (TransitionResult M E × σF))
    (second_fn : C → M → σS → Option (TransitionResult N E × σS))
    (sm : Chained σF σS M N E) (c : C) (a : A)
    (r : TransitionResult N E) (sm' : Chained σF σS M N E)
    (h : Chained.transition first_fn second_fn sm c a = some (r, sm'))
    (ht : r.isTerminal = true) : Chained.latched sm' r := by
  cases hres : sm.result with
  | Empty =>
    cases hf : first_fn c a sm.first with
    | none =>
      simp only [Chained.transition, hres, hf] at h
      exact Option.noConfusion h
    | some pair =>
      obtain ⟨result, first'⟩ := pair
      cases result with
      | NoTransition =>
        simp only [Chained.transition, hres, hf, Option.some.injEq,
          Prod.mk.injEq] at h
        rw [← h.1] at ht
        cases ht
      | Done mid =>
        simp only [Chained.transition, hres, hf, Option.some.injEq,
          Prod.mk.injEq] at h
        rw [← h.1] at ht
        cases ht
      | Error e =>
        simp only [Chained.transition, hres, hf, Option.some.injEq,
          Prod.mk.injEq] at h
        rw [← h.2, ← h.1]
        exact Or.inl ⟨e, rfl, rfl⟩
  | First first_res =>
    cases first_res with
    | Done intermediate =>
      cases hs : second_fn c intermediate sm.second with
      | none =>
        simp only [Chained.transition, hres, hs] at h
        exact Option.noConfusion h
      | some pair =>
        obtain ⟨result, second'⟩ := pair
        cases result with
        | NoTransition =>
          simp only [Chained.transition, hres, hs, Option.some.injEq,
            Prod.mk.injEq] at h
          rw [← h.1] at ht
          cases ht
        | Done val =>
          simp only [Chained.transition, hres, hs, Option.some.injEq,
            Prod.mk.injEq] at h
          rw [← h.2, ← h.1]
          exact Or.inr rfl
        | Error e =>
          simp only [Chained.transition, hres, hs, Option.some.injEq,
            Prod.mk.injEq] at h
          rw [← h.2, ← h.1]
          exact Or.inr rfl
    | Error e =>
      simp only [Chained.transition, hres, Option.some.injEq,
        Prod.mk.injEq] at h
      rw [← h.2, ← h.1]
      exact Or.inl ⟨e, rfl, by rw [hres]⟩
    | NoTransition =>
      simp only [Chained.transition, hres] at h
      exact Option.noConfusion h
  | Second second_res =>
    simp only [Chained.transition, hres, Option.some.injEq,
      Prod.mk.injEq] at h
    rw [← h.2, ← h.1]
    exact Or.inr (by rw [hres])

theorem containsKey_removeKey {α : Type} (m : List (Nat × α)) (k : Nat) :
    containsKey (removeKey m k) k = false := by
  induction m with
  | nil => rfl
  | cons p rest ih =>
    by_cases hp : p.1 = k
    · simpa [removeKey, List.filter_cons, hp] using ih
    · simp only [removeKey, List.filter_cons] at ih ⊢
      rw [if_pos (by simpa using hp)]
      simpa [containsKey, hp] using ih

theorem lookupKey_removeKey {α : Type} (m : List (Nat × α)) (k : Nat) :
    lookupKey (removeKey m k) k = none := by
  induction m with
  | nil => rfl
  | cons p rest ih =>
    by_cases hp : p.1 = k
    · simpa [removeKey, List.filter_cons, hp] using ih
    · simp only [removeKey, List.filter_cons] at ih ⊢
      rw [if_pos (by simpa using hp)]
      simpa [lookupKey, List.find?_cons, hp] using ih

theorem rustRange_to_zero (n : Nat) : rustRange n 0 = [] := by
  simp [rustRange]

/-! ### Claim theorems -/

/-- C2: for every instance of Next, WithState, WithLazyState, or Chained,
once a transition call has returned `Done x` or `Error e`, every later
transition call — for any context, any input, and any (even different)
wrapped transition logic, so the wrapped logic is not invoked again —
returns that identical `Done x`/`Error e` and leaves the machine state
unchanged; the `runSeq` conjuncts state this for every sequence of later
calls at once. -/
theorem latch_on_completion :
    (∀ (A C N E : Type) (f : C → A → Option (TransitionResult N E))
       (sm : Next N E) (c : C) (a : A) (r : TransitionResult N E)
       (sm' : Next N E),
       Next.transition f sm c a = some (r, sm') → r.isTerminal = true →
       (∀ (f' : C → A → Option (TransitionResult N E)) (c' : C) (a' : A),
          Next.transition f' sm' c' a' = some (r, sm')) ∧
       (∀ calls : List ((C → A → Option (TransitionResult N E)) × C × A),
          runSeq (calls.map
              (fun t sm2 => Next.transition t.1 sm2 t.2.1 t.2.2)) sm' =
            some (List.replicate calls.length r, sm'))) ∧
    (∀ (A C S N E : Type) (f : C → S → A → Option (TransitionResult N E × S))
       (sm : WithState S N E) (c : C) (a : A) (r : TransitionResult N E)
       (sm' : WithState S N E),
       WithState.transition f sm c a = some (r, sm') → r.isTerminal = true →
       (∀ (f' : C → S → A → Option (TransitionResult N E × S)) (c' : C)
          (a' : A), WithState.transition f' sm' c' a' = some (r, sm')) ∧
       (∀ calls : List ((C → S → A → Option (TransitionResult N E × S)) × C × A),
          runSeq (calls.map
              (fun t sm2 => WithState.transition t.1 sm2 t.2.1 t.2.2)) sm' =
            some (List.replicate calls.length r, sm'))) ∧
    (∀ (A C S N E : Type) (init : A → S)
       (f : C → S → A → Option (TransitionResult N E × S))
       (sm : WithLazyState S N E) (c : C) (a : A) (r : TransitionResult N E)
       (sm' : WithLazyState S N E),
       WithLazyState.transition init f sm c a = some (r, sm') →
       r.isTerminal = true →
       (∀ (init' : A → S) (f' : C → S → A → Option (TransitionResult N E × S))
          (c' : C) (a' : A),
          WithLazyState.transition init' f' sm' c' a' = some (r, sm')) ∧
       (∀ calls : List ((A → S) ×
            (C → S → A → Option (TransitionResult N E × S)) × C × A),
          runSeq (calls.map
              (fun t sm2 =>
                WithLazyState.transition t.1 t.2.1 sm2 t.2.2.1 t.2.2.2)) sm' =
            some (List.replicate calls.length r, sm'))) ∧
    (∀ (A C σF σS M N E : Type)
       (fF : C → A → σF → Option (TransitionResult M E × σF))
       (fS : C → M → σS → Option (TransitionResult N E × σS))
       (sm : Chained σF σS M N E) (c : C) (a : A) (r : TransitionResult N E)
       (sm' : Chained σF σS M N E),
       Chained.transition fF fS sm c a = some (r, sm') → r.isTerminal = true →
       (∀ (fF' : C → A → σF → Option (TransitionResult M E × σF))
          (fS' : C → M → σS → Option (TransitionResult N E × σS))
          (c' : C) (a' : A),
          Chained.transition fF' fS' sm' c' a' = some (r, sm')) ∧
       (∀ calls : List ((C → A → σF → Option (TransitionResult M E × σF)) ×
            (C → M → σS → Option (TransitionResult N E × σS)) × C × A),
          runSeq (calls.map
              (fun t sm2 =>
                Chained.transition t.1 t.2.1 sm2 t.2.2.1 t.2.2.2)) sm' =
            some (List.replicate calls.length r, sm'))) := by
  refine ⟨?_, ?_, ?_, ?_⟩
  · intro A C N E f sm c a r sm' h ht
    have hl := next_terminal_latches f sm c a r sm' h ht
    refine ⟨fun f' c' a' => next_latched_step sm' r hl f' c' a', fun calls => ?_⟩
    have hrun := runSeq_const r sm'
      (calls.map (fun t sm2 => Next.transition t.1 sm2 t.2.1 t.2.2))
      (by
        intro cf hcf
        obtain ⟨t, _, rfl⟩ := List.mem_map.mp hcf
        exact next_latched_step sm' r hl t.1 t.2.1 t.2.2)
    rw [hrun, List.length_map]
  · intro A C S N E f sm c a r sm' h ht
    have hl := withstate_terminal_latches f sm c a r sm' h ht
    refine ⟨fun f' c' a' => withstate_latched_step sm' r hl f' c' a',
      fun calls => ?_⟩
    have hrun := runSeq_const r sm'
      (calls.map (fun t sm2 => WithState.transition t.1 sm2 t.2.1 t.2.2))
      (by
        intro cf hcf
        obtain ⟨t, _, rfl⟩ := List.mem_map.mp hcf
        exact withstate_latched_step sm' r hl t.1 t.2.1 t.2.2)
    rw [hrun, List.length_map]
  · intro A C S N E init f sm c a r sm' h ht
    have hl := withlazystate_terminal_latches init f sm c a r sm' h ht
    refine ⟨fun init' f' c' a' =>
      withlazystate_latched_step sm' r hl.1 hl.2 init' f' c' a',
      fun calls => ?_⟩
    have hrun := runSeq_const r sm'
      (calls.map
        (fun t sm2 =>
          WithLazyState.transition t.1 t.2.1 sm2 t.2.2.1 t.2.2.2))
      (by
        intro cf hcf
        obtain ⟨t, _, rfl⟩ := List.mem_map.mp hcf
        exact withlazystate_latched_step sm' r hl.1 hl.2 t.1 t.2.1 t.2.2.1
          t.2.2.2)
    rw [hrun, List.length_map]
  · intro A C σF σS M N E fF fS sm c a r sm' h ht
    have hl := chained_terminal_latches fF fS sm c a r sm' h ht
    refine ⟨fun fF' fS' c' a' => chained_latched_step sm' r hl fF' fS' c' a',
      fun calls => ?_⟩
    have hrun := runSeq_const r sm'
      (calls.map
        (fun t sm2 => Chained.transition t.1 t.2.1 sm2 t.2.2.1 t.2.2.2))
      (by
        intro cf hcf
        obtain ⟨t, _, rfl⟩ := List.mem_map.mp hcf
        exact chained_latched_step sm' r hl t.1 t.2.1 t.2.2.1 t.2.2.2)
    rw [hrun, List.length_map]

/-- C2 witness: a concrete `Next` machine that just produced `Done 5` keeps
returning `Done 5` even when the replacement logic would panic. -/
theorem latch_on_completion_witness :
    Next.transition
        (fun (_ : Unit) (_ : Unit) => (none : Option (TransitionResult Nat Nat)))
        { done := some (.Done 5) } () () =
      some (.Done 5, { done := some (.Done 5) }) :=
  (latch_on_completion.1 Unit Unit Nat Nat
      (fun _ _ => some (.Done 5)) { done := none } () () (.Done 5)
      { done := some (.Done 5) } rfl rfl).1
    (fun _ _ => none) () ()

/-- C3: for `Chained (A, B)`: while A has not completed (`result` still
`Empty`), the outcome is independent of B's transition logic and B's state
is untouched, so B never observes any stimulus before A has returned
`Done`; and when A returns `Error e`, the chain returns that error
unchanged, latches it, and from then on every call returns the same error
with both sub-machines untouched — B is never invoked at all. -/
theorem chained_ordering :
    (∀ (A C σF σS M N E : Type) (sm : Chained σF σS M N E),
       sm.result = .Empty →
       ∀ (fF : C → A → σF → Option (TransitionResult M E × σF))
         (fS fS' : C → M → σS → Option (TransitionResult N E × σS))
         (c : C) (a : A),
         Chained.transition fF fS sm c a = Chained.transition fF fS' sm c a ∧
         (∀ r sm', Chained.transition fF fS sm c a = some (r, sm') →
            sm'.second = sm.second)) ∧
    (∀ (A C σF σS M N E : Type) (sm : Chained σF σS M N E) (e : E),
       sm.result = .First (.Error e) →
       ∀ (fF : C → A → σF → Option (TransitionResult M E × σF))
         (fS : C → M → σS → Option (TransitionResult N E × σS))
         (c : C) (a : A),
         Chained.transition fF fS sm c a = some (.Error e, sm)) ∧
    (∀ (A C σF σS M N E : Type) (sm : Chained σF σS M N E)
       (fF : C → A → σF → Option (TransitionResult M E × σF))
       (fS : C → M → σS → Option (TransitionResult N E × σS))
       (c : C) (a : A) (e : E) (first' : σF),
       sm.result = .Empty → fF c a sm.first = some (.Error e, first') →
       Chained.transition fF fS sm c a =
         some (.Error e,
           { sm with first := first', result := .First (.Error e) })) := by
  refine ⟨?_, ?_, ?_⟩
  · intro A C σF σS M N E sm hres fF fS fS' c a
    constructor
    · simp only [Chained.transition, hres]
    · intro r sm' h
      cases hf : fF c a sm.first with
      | none =>
        simp only [Chained.transition, hres, hf] at h
        exact Option.noConfusion h
      | some pair =>
        obtain ⟨result, first'⟩ := pair
        cases result with
        | NoTransition =>
          simp only [Chained.transition, hres, hf, Option.some.injEq,
            Prod.mk.injEq] at h
          rw [← h.2]
        | Done mid =>
          simp only [Chained.transition, hres, hf, Option.some.injEq,
            Prod.mk.injEq] at h
          rw [← h.2]
        | Error e =>
          simp only [Chained.transition, hres, hf, Option.some.injEq,
            Prod.mk.injEq] at h
          rw [← h.2]
  · intro A C σF σS M N E sm e hres fF fS c a
    simp [Chained.transition, hres]
  · intro A C σF σS M N E sm fF fS c a e first' hres hf
    simp [Chained.transition, hres, hf]

/-- C3 witness: a chain whose first transition errors latches the error
with B untouched, and a latched chain keeps returning it. -/
theorem chained_ordering_witness :
    (Chained.transition
        (fun (_ : Unit) (_ : Unit) (s : Unit) =>
          some ((.Error 3 : TransitionResult Nat Nat), s))
        (fun (_ : Unit) (_ : Nat) (s : Unit) =>
          (none : Option (TransitionResult Nat Nat × Unit)))
        { first := (), second := (), result := .Empty } () () =
      some (.Error 3, { first := (), second := (),
                        result := .First (.Error 3) })) ∧
    (Chained.transition
        (fun (_ : Unit) (_ : Unit) (s : Unit) =>
          some ((.Error 3 : TransitionResult Nat Nat), s))
        (fun (_ : Unit) (_ : Nat) (s : Unit) =>
          (none : Option (TransitionResult Nat Nat × Unit)))
        { first := (), second := (), result := .First (.Error 3) } () () =
      some (.Error 3, { first := (), second := (),
                        result := .First (.Error 3) })) :=
  ⟨chained_ordering.2.2 Unit Unit Unit Unit Nat Nat Nat
      { first := (), second := (), result := .Empty }
      (fun _ _ s => some (.Error 3, s)) (fun _ _ _ => none) () () 3 () rfl rfl,
    chained_ordering.2.1 Unit Unit Unit Unit Nat Nat Nat
      { first := (), second := (), result := .First (.Error 3) } 3 rfl
      (fun _ _ s => some (.Error 3, s)) (fun _ _ _ => none) () ()⟩

/-- C4 counterexample: a `WithState` phase whose transition fails with
`Error 7`; reissuing the triggering stimulus afterwards does not retry the
transition — even though the (replacement) transition logic would now
succeed with `Done 1`, the machine keeps returning the cached `Error 7`,
so the claimed retry of the failed transition never happens. -/
theorem failed_transition_no_retry_counterexample :
    WithState.transition c4fail c4sm0 0 0 = some (.Error 7, c4sm1) ∧
    WithState.transition c4retry c4sm1 0 0 = some (.Error 7, c4sm1) ∧
    c4retry 0 0 0 = some (.Done 1, 0) :=
  ⟨rfl, rfl, rfl⟩

/-- C4 (amended): when a live phase's fallible transition fails, the
staged pre-transition phase data is preserved (the stored state is exactly
the state the transition function handed back — no partial phase commit)
and the error is surfaced; but the error is latched: every subsequent
stimulus returns the identical error without invoking the transition logic
again, and `update_inner` evicts the machine from the registry and
releases its matching group reservation, so the triggering stimulus cannot
be reissued to retry the transition. -/
theorem failed_transition_staged_and_latched :
    (∀ (A C S N E : Type) (f : C → S → A → Option (TransitionResult N E × S))
       (sm : WithState S N E) (c : C) (a : A) (e : E)
       (sm' : WithState S N E),
       sm.done = none →
       WithState.transition f sm c a = some (.Error e, sm') →
       (∃ st res_state, sm.state = some st ∧
          f c st a = some (.Error e, res_state) ∧
          sm'.state = some res_state) ∧
       sm'.done = some (.Error e) ∧
       (∀ (f' : C → S → A → Option (TransitionResult N E × S)) (c' : C)
          (a' : A),
          WithState.transition f' sm' c' a' = some (.Error e, sm'))) ∧
    (∀ (V σ C N E : Type) (step : C → σ → Option (TransitionResult N E × σ))
       (self : StateMachineMap V) (sm : MessageStateMachine σ)
       (message_id : Nat) (context : C) (e : E) (sm2 : σ),
       step context sm.sm = some (.Error e, sm2) →
       ∃ selfOut smOut,
         update_inner step self sm message_id context = some (selfOut, smOut) ∧
         lookupKey selfOut.map message_id = none ∧
         (lookupKey self.running_rounds sm.guild_id =
             some (some sm.message_id) →
           lookupKey selfOut.running_rounds sm.guild_id = none)) := by
  constructor
  · intro A C S N E f sm c a e sm' hdone h
    cases hstate : sm.state with
    | none =>
      simp only [WithState.transition, hdone, hstate] at h
      exact Option.noConfusion h
    | some st =>
      cases hf : f c st a with
      | none =>
        simp only [WithState.transition, hdone, hstate, hf] at h
        exact Option.noConfusion h
      | some pair =>
        obtain ⟨result, new_state⟩ := pair
        cases result with
        | NoTransition =>
          simp only [WithState.transition, hdone, hstate, hf,
            Option.some.injEq, Prod.mk.injEq] at h
          exact absurd h.1 (by simp)
        | Done val =>
          simp only [WithState.transition, hdone, hstate, hf,
            Option.some.injEq, Prod.mk.injEq] at h
          exact absurd h.1 (by simp)
        | Error e2 =>
          simp only [WithState.transition, hdone, hstate, hf,
            Option.some.injEq, Prod.mk.injEq] at h
          obtain ⟨he, hsm⟩ := h
          cases he
          refine ⟨⟨st, new_state, rfl, hf, by rw [← hsm]⟩, by rw [← hsm],
            fun f' c' a' => ?_⟩
          exact withstate_latched_step sm' (.Error e) (by rw [← hsm]) f' c' a'
  · intro V σ C N E step self sm message_id context e sm2 hstep
    simp only [update_inner, hstep]
    refine ⟨_, _, rfl, lookupKey_removeKey _ _, fun hres => ?_⟩
    simp only [hres]
    simp [lookupKey_removeKey]

/-- C4 witness: the amended claim at the concrete failing machine and at a
concrete registry holding it. -/
theorem failed_transition_staged_and_latched_witness :
    ((∃ st res_state, c4sm0.state = some st ∧
        c4fail 0 st 0 = some (.Error 7, res_state) ∧
        c4sm1.state = some res_state) ∧
      c4sm1.done = some (.Error 7) ∧
      (∀ (f' : Nat → Nat → Nat → Option (TransitionResult Nat Nat × Nat))
         (c' : Nat) (a' : Nat),
         WithState.transition f' c4sm1 c' a' = some (.Error 7, c4sm1))) ∧
    (∃ selfOut smOut,
       update_inner (fun (_ : Unit) (_ : Unit) =>
           some ((.Error 7 : TransitionResult Nat Nat), ()))
         c5Map c5Machine 10 () = some (selfOut, smOut) ∧
       lookupKey selfOut.map 10 = none ∧
       (lookupKey c5Map.running_rounds c5Machine.guild_id =
           some (some c5Machine.message_id) →
         lookupKey selfOut.running_rounds c5Machine.guild_id = none)) :=
  ⟨failed_transition_staged_and_latched.1 Nat Nat Nat Nat Nat c4fail c4sm0
      0 0 7 c4sm1 rfl rfl,
    failed_transition_staged_and_latched.2 Unit Unit Unit Nat Nat
      (fun _ _ => some (.Error 7, ())) c5Map c5Machine 10 () 7 () rfl⟩

/-- C5: while a reservation for a guild is outstanding, a further
`reserve_running_game` call for that guild fails and changes nothing;
and once the machine holding the reservation completes with `Done` or
`Error` — `update_inner` removing the reservation that points at its
message id — a subsequent reservation attempt for that guild succeeds. -/
theorem reservation_exclusivity :
    (∀ (V : Type) (self : StateMachineMap V) (guild : Nat),
       containsKey self.running_rounds guild = true →
       reserve_running_game self guild = (.error (), self)) ∧
    (∀ (V σ C N E : Type) (step : C → σ → Option (TransitionResult N E × σ))
       (self : StateMachineMap V) (sm : MessageStateMachine σ)
       (message_id : Nat) (context : C) (r : TransitionResult N E) (sm2 : σ),
       step context sm.sm = some (r, sm2) → r.isTerminal = true →
       lookupKey self.running_rounds sm.guild_id = some (some sm.message_id) →
       ∃ selfOut smOut,
         update_inner step self sm message_id context = some (selfOut, smOut) ∧
         containsKey selfOut.running_rounds sm.guild_id = false ∧
         (reserve_running_game selfOut sm.guild_id).1 = .ok ()) := by
  constructor
  · intro V self guild h
    simp [reserve_running_game, h]
  · intro V σ C N E step self sm message_id context r sm2 hstep ht hres
    cases r with
    | NoTransition => cases ht
    | Done val =>
      simp only [update_inner, hstep]
      refine ⟨_, _, rfl, ?_, ?_⟩
      · simp only [hres]
        simp [containsKey_removeKey]
      · simp only [hres]
        simp [reserve_running_game, containsKey_removeKey]
    | Error e =>
      simp only [update_inner, hstep]
      refine ⟨_, _, rfl, ?_, ?_⟩
      · simp only [hres]
        simp [containsKey_removeKey]
      · simp only [hres]
        simp [reserve_running_game, containsKey_removeKey]

/-- C5 witness: a concrete registry with guild 7 reserved for message 10;
the second reservation attempt fails, and after the machine completes the
reservation is gone and a new attempt succeeds. -/
theorem reservation_exclusivity_witness :
    reserve_running_game c5Map 7 = (.error (), c5Map) ∧
    (∃ selfOut smOut,
       update_inner c5Step c5Map c5Machine 10 () = some (selfOut, smOut) ∧
       containsKey selfOut.running_rounds c5Machine.guild_id = false ∧
       (reserve_running_game selfOut c5Machine.guild_id).1 = .ok ()) :=
  ⟨reservation_exclusivity.1 Unit c5Map 7 rfl,
    reservation_exclusivity.2 Unit Unit Unit Nat Nat c5Step c5Map c5Machine
      10 () (.Done 0) () rfl rfl rfl⟩

/-- What `distribute` actually computes: an error exactly on validation
failure, and otherwise `Ok` with the empty map, because both assignment
loops iterate the empty Rust range `len()..0`. -/
theorem distribute_eq (ps : List Nat) (roles : List (WereWolfRoleConfig × Nat))
    (rng : Rng) :
    distribute ps roles rng =
      some (if nonNestedCount roles ≠ ps.length then
              .error (.MismatchedCount (nonNestedCount roles) ps.length)
            else if nestedCount roles > nonNestedCount roles then
              .error (.TooManyMaskedRoles (nestedCount roles)
                (nonNestedCount roles))
            else .ok []) := by
  simp only [distribute, nonNestedCount, nestedCount, rustRange_to_zero,
    List.foldlM_nil]
  split_ifs with h1 h2
  · rfl
  · rfl
  · rfl

/-- C6: `distribute` fails deterministically (an error value, never a
panic) exactly when validation fails: a mismatched non-masking/participant
count yields `MismatchedCount` carrying the two counts, an excess of
masking occurrences yields `TooManyMaskedRoles` carrying both counts; in
particular 3 participants with roles `[RoleA: 2, RoleB: 2]` yield
`MismatchedCount 4 3`. -/
theorem distribute_validation_errors :
    (∀ (ps : List Nat) (roles : List (WereWolfRoleConfig × Nat)) (rng : Rng),
       distribute ps roles rng =
         some (if nonNestedCount roles ≠ ps.length then
                 .error (.MismatchedCount (nonNestedCount roles) ps.length)
               else if nestedCount roles > nonNestedCount roles then
                 .error (.TooManyMaskedRoles (nestedCount roles)
                   (nonNestedCount roles))
               else .ok [])) ∧
    distribute [101, 102, 103] [(roleA, 2), (roleB, 2)] rng0 =
      some (.error (.MismatchedCount 4 3)) :=
  ⟨distribute_eq, by rw [distribute_eq]; rfl⟩

/-- C1 (code evaluated at the failing input): for the valid input of one
participant and one non-masking role with headcount 1 — validation passes,
as the count conjuncts show — `distribute` returns `Ok` with the EMPTY
assignment instead of a bijection, because its assignment loops iterate
the empty Rust range `nested_roles.len()..0` / `non_nested_roles.len()..0`
and never run. -/
theorem distribute_returns_empty_assignment :
    distribute [1] [(roleA, 1)] rng0 = some (.ok []) ∧
    nonNestedCount [(roleA, 1)] = 1 ∧
    nestedCount [(roleA, 1)] = 0 ∧
    ([1] : List Nat).length = 1 :=
  ⟨by rw [distribute_eq]; rfl, rfl, rfl, rfl⟩

/-- The role loop of `reactions` collects exactly the page's slice of the
role list (the `break` hits the end of the list). -/
theorem rolePageLoop_eq (roles : List String) (page : Nat) :
    ∀ (remaining raw_index : Nat),
      rolePageLoop roles page raw_index remaining =
        ((roles.drop (raw_index + page * MAX_REACTIONS)).take remaining).map
          Reactions.Custom := by
  intro remaining
  induction remaining with
  | zero => intro ri; simp [rolePageLoop]
  | succ rem ih =>
    intro ri
    cases hg : roles[ri + page * MAX_REACTIONS]? with
    | none =>
      have hlen : roles.length ≤ ri + page * MAX_REACTIONS :=
        List.getElem?_eq_none_iff.mp hg
      rw [List.drop_eq_nil_of_le hlen]
      simp [rolePageLoop, hg]
    | some role =>
      have hlt : ri + page * MAX_REACTIONS < roles.length := by
        by_contra hge
        rw [List.getElem?_eq_none (Nat.le_of_not_lt hge)] at hg
        cases hg
      have hdrop : roles.drop (ri + page * MAX_REACTIONS) =
          role :: roles.drop (ri + page * MAX_REACTIONS + 1) := by
        rw [List.drop_eq_getElem_cons hlt]
        have hge := List.getElem?_eq_getElem hlt
        rw [hge] at hg
        simp only [Option.some.injEq] at hg
        rw [hg]
      rw [hdrop]
      simp only [rolePageLoop, hg, List.take_succ_cons, List.map_cons]
      rw [ih (ri + 1)]
      have harith : ri + 1 + page * MAX_REACTIONS =
          ri + page * MAX_REACTIONS + 1 := by omega
      rw [harith]

/-- C9: with 20 available roles and page size 17, page 0 shows exactly the
first 17 role emojis, then the next-page reaction and the confirm reaction
(no previous-page reaction); page 1 shows exactly the previous-page
reaction, the remaining 3 role emojis and the confirm reaction, with no
next-page reaction. -/
theorem pagination_reactions :
    ∀ roles : List String, roles.length = 20 →
      reactions roles 0 =
        (roles.take 17).map Reactions.Custom ++
          [Reactions.NextPage, Reactions.Confirm] ∧
      reactions roles 1 =
        Reactions.PreviousPage ::
          ((roles.drop 17).map Reactions.Custom ++ [Reactions.Confirm]) := by
  intro roles hlen
  constructor
  · have hloop := rolePageLoop_eq roles 0 MAX_REACTIONS 0
    simp only [Nat.zero_mul, Nat.add_zero, List.drop_zero,
      MAX_REACTIONS] at hloop
    simp [reactions, hloop, is_last_page, hlen, MAX_REACTIONS,
      List.map_take]
  · have hloop := rolePageLoop_eq roles 1 MAX_REACTIONS 0
    simp only [Nat.one_mul, Nat.zero_add] at hloop
    have htake : (roles.drop MAX_REACTIONS).take MAX_REACTIONS =
        roles.drop MAX_REACTIONS := by
      apply List.take_of_length_le
      rw [List.length_drop, hlen]
      norm_num [MAX_REACTIONS]
    rw [htake] at hloop
    simp only [MAX_REACTIONS] at hloop
    simp [reactions, hloop, is_last_page, hlen, MAX_REACTIONS,
      List.map_drop]

/-- C9 witness: the pagination scenario at a concrete list of 20 role
emojis. -/
theorem pagination_reactions_witness :
    c9Roles.length = 20 ∧
    reactions c9Roles 0 =
      (c9Roles.take 17).map Reactions.Custom ++
        [Reactions.NextPage, Reactions.Confirm] ∧
    reactions c9Roles 1 =
      Reactions.PreviousPage ::
        ((c9Roles.drop 17).map Reactions.Custom ++ [Reactions.Confirm]) :=
  ⟨rfl, pagination_reactions c9Roles rfl⟩

/-- C8: a reaction from a user who is not a moderator attempting to
confirm the player registration, to do anything on the role-selection
page (confirm, paginate, toggle), or to end a running round, yields
`NoTransition` with the phase state unchanged and no error — and since the
outcome is independent of the abstracted collaborator parameters, no
collaborator call is made. -/
theorem nonmoderator_reactions_ignored :
    (∀ (loadRoles : Option (List WereWolfRoleConfig))
       (mkSelect : GeneralWerewolfState RegisterPlayers →
         List WereWolfRoleConfig →
         Except Unit (GeneralWerewolfState SelectRoles))
       (g : Nat) (state : GeneralWerewolfState RegisterPlayers) (uid : Nat),
       state.mods.contains uid = false →
       registerPlayersTransition loadRoles mkSelect
           ⟨some (.AddReaction ⟨uid, Reactions.Confirm.to_str⟩), g⟩ state =
         some (.NoTransition, state)) ∧
    (∀ (updateMsg : GeneralWerewolfState SelectRoles → Except Unit Unit)
       (mkRoleCounts : GeneralWerewolfState SelectRoles →
         Except Unit (GeneralWerewolfState RoleCounts))
       (g : Nat) (state : GeneralWerewolfState SelectRoles) (uid : Nat)
       (emoji : String),
       state.mods.contains uid = false →
       selectRolesTransition updateMsg mkRoleCounts
           ⟨some (.AddReaction ⟨uid, emoji⟩), g⟩ state =
         some (.NoTransition, state)) ∧
    (∀ (stopRound : GeneralWerewolfState Running → Option Unit)
       (g : Nat) (state : GeneralWerewolfState Running) (uid : Nat),
       state.mods.contains uid = false →
       runningTransition stopRound
           ⟨some (.AddReaction ⟨uid, Reactions.Stop.to_str⟩), g⟩ state =
         some (.NoTransition, state)) := by
  refine ⟨?_, ?_, ?_⟩
  · intro loadRoles mkSelect g state uid hmod
    have h1 : (Reactions.Entry.to_str == Reactions.Confirm.to_str) = false :=
      by decide
    have h2 : (Reactions.Confirm.to_str == Reactions.Confirm.to_str) = true :=
      by decide
    have hmem : uid ∉ state.mods := by simpa using hmod
    simp [registerPlayersTransition, h1, h2, hmem, Reactions.to_str]
  · intro updateMsg mkRoleCounts g state uid emoji hmod
    have hmem : uid ∉ state.mods := by simpa using hmod
    simp [selectRolesTransition, hmem]
  · intro stopRound g state uid hmod
    have hmem : uid ∉ state.mods := by simpa using hmod
    simp [runningTransition, hmem]

/-- C8 witness: the three non-moderator attempts at concrete states with
moderator set `[5]` and reacting user `9`. -/
theorem nonmoderator_reactions_ignored_witness :
    c8RP.mods.contains 9 = false ∧
    registerPlayersTransition none (fun _ _ => .error ())
        ⟨some (.AddReaction ⟨9, Reactions.Confirm.to_str⟩), 1⟩ c8RP =
      some (.NoTransition, c8RP) ∧
    selectRolesTransition (fun _ => .ok ()) (fun _ => .error ())
        ⟨some (.AddReaction ⟨9, Reactions.NextPage.to_str⟩), 1⟩ c7Prev =
      some (.NoTransition, c7Prev) ∧
    runningTransition (fun _ => some ())
        ⟨some (.AddReaction ⟨9, Reactions.Stop.to_str⟩), 1⟩ c8Run =
      some (.NoTransition, c8Run) :=
  ⟨rfl,
    nonmoderator_reactions_ignored.1 none (fun _ _ => .error ()) 1 c8RP 9 rfl,
    nonmoderator_reactions_ignored.2.1 (fun _ => .ok ()) (fun _ => .error ())
      1 c7Prev 9 Reactions.NextPage.to_str rfl,
    nonmoderator_reactions_ignored.2.2 (fun _ => some ()) 1 c8Run 9 rfl⟩

/-- C10: in the RegisterUsers phase an `AddReaction` with the entry emoji
always appends the reacting user to the player list — also when that user
is already registered, so duplicates accumulate — and a `RemoveReaction`
with the entry emoji removes exactly the first matching entry, so a
remaining duplicate stays registered. -/
theorem duplicate_player_registration :
    (∀ (loadRoles : Option (List WereWolfRoleConfig))
       (mkSelect : GeneralWerewolfState RegisterPlayers →
         List WereWolfRoleConfig →
         Except Unit (GeneralWerewolfState SelectRoles))
       (g : Nat) (state : GeneralWerewolfState RegisterPlayers) (uid : Nat),
       registerPlayersTransition loadRoles mkSelect
           ⟨some (.AddReaction ⟨uid, Reactions.Entry.to_str⟩), g⟩ state =
         some (.NoTransition,
           { state with inner :=
             { players := state.inner.players ++ [uid] } })) ∧
    (∀ (loadRoles : Option (List WereWolfRoleConfig))
       (mkSelect : GeneralWerewolfState RegisterPlayers →
         List WereWolfRoleConfig →
         Except Unit (GeneralWerewolfState SelectRoles))
       (g : Nat) (state : GeneralWerewolfState RegisterPlayers) (uid : Nat),
       registerPlayersTransition loadRoles mkSelect
           ⟨some (.RemoveReaction ⟨uid, Reactions.Entry.to_str⟩), g⟩ state =
         some (.NoTransition,
           { state with inner :=
             { players :=
                 removeFirstPlayer state.inner.players uid } })) ∧
    (∀ (uid : Nat) (rest : List Nat),
       removeFirstPlayer (uid :: uid :: rest) uid = uid :: rest) ∧
    (∀ (l : List Nat) (uid : Nat),
       (l ++ [uid]).count uid = l.count uid + 1) := by
  refine ⟨?_, ?_, ?_, ?_⟩
  · intro loadRoles mkSelect g state uid
    simp [registerPlayersTransition]
  · intro loadRoles mkSelect g state uid
    simp [registerPlayersTransition]
  · intro uid rest
    simp [removeFirstPlayer, List.findIdx?_cons]
  · intro l uid
    simp [List.count_append]

/-- C7: with exactly two multiplayer roles selected, entering RoleCounts
leaves both roles pending (and no immediate `Notify`); resolving the first
role's headcount reply (sub-machine pushes onto the shared queue and
notifies) and processing that `Notify` keeps the machine in RoleCounts
with only the second role pending; resolving the second role's reply and
processing its `Notify` completes the phase towards Ongoing. -/
theorem role_counts_barrier :
    ∀ (r1 r2 : WereWolfRoleConfig) (prev : GeneralWerewolfState SelectRoles)
      (c1 c2 : Nat)
      (mkRunning : GeneralWerewolfState RoleCounts →
        Except String (GeneralWerewolfState Running))
      (run : GeneralWerewolfState Running)
      (sub1 sub2 : RoleCountState) (msg1 msg2 : Message)
      (ctxN ctx1 ctx2 : Context),
      r1.multi_player = true → r2.multi_player = true →
      r1.name ≠ r2.name →
      prev.inner.selected_roles = [r1, r2] →
      (∀ s, mkRunning s = .ok run) →
      sub1.role = r1 → sub2.role = r2 →
      sub1.round_mods.contains msg1.author = true →
      sub2.round_mods.contains msg2.author = true →
      parseNat msg1.content = some c1 → parseNat msg2.content = some c2 →
      ctxN.event = some .Notify →
      ctx1.event = some (.Reply msg1) → ctx2.event = some (.Reply msg2) →
      ∃ s0 s1 s2,
        roleCountsNew (fun _ => .ok ()) prev = .ok (s0, false) ∧
        s0.inner.role_messages = [r1, r2] ∧
        s0.inner.count_queue = [] ∧
        roleReplyTransition ctx1 sub1 s0.inner.count_queue =
          (.Done (), sub1, [(r1, c1)], true) ∧
        roleCountsTransition mkRunning ctxN (setQueue s0 [(r1, c1)]) =
          (.NoTransition, s1) ∧
        s1.inner.role_messages = [r2] ∧
        roleReplyTransition ctx2 sub2 s1.inner.count_queue =
          (.Done (), sub2, [(r2, c2)], true) ∧
        roleCountsTransition mkRunning ctxN (setQueue s1 [(r2, c2)]) =
          (.Done run, s2) ∧
        s2.inner.role_messages = [] := by
  intro r1 r2 prev c1 c2 mkRunning run sub1 sub2 msg1 msg2 ctxN ctx1 ctx2
  intro h1 h2 hne hsel hmk hrole1 hrole2 hm1 hm2 hp1 hp2 hN hc1 hc2
  have hne' : r2.name ≠ r1.name := Ne.symm hne
  have hmem1 : msg1.author ∈ sub1.round_mods := by simpa using hm1
  have hmem2 : msg2.author ∈ sub2.round_mods := by simpa using hm2
  refine ⟨{ mods := prev.mods, message := prev.message,
            bot_user := prev.bot_user,
            inner := { players := prev.inner.players, roles := [],
                       role_messages := [r1, r2], count_queue := [] } },
          { mods := prev.mods, message := prev.message,
            bot_user := prev.bot_user,
            inner := { players := prev.inner.players, roles := [(r1, c1)],
                       role_messages := [r2], count_queue := [] } },
          { mods := prev.mods, message := prev.message,
            bot_user := prev.bot_user,
            inner := { players := prev.inner.players,
                       roles := [(r1, c1), (r2, c2)],
                       role_messages := [], count_queue := [] } },
          ?_, rfl, rfl, ?_, ?_, rfl, ?_, ?_, rfl⟩
  · simp [roleCountsNew, roleCountsLoop, hsel, h1, h2, setInsertRole, hne]
  · simp [roleReplyTransition, hc1, hmem1, hp1, hrole1]
  · simp [roleCountsTransition, hN, setQueue, setRemoveRole,
      insertRoleCount, List.filter_cons, bne_iff_ne, hne, hne']
  · simp [roleReplyTransition, hc2, hmem2, hp2, hrole2]
  · simp [roleCountsTransition, hN, setQueue, setRemoveRole,
      insertRoleCount, List.filter_cons, bne_iff_ne, hne, hne', hmk]

/-- C7 witness: the barrier scenario with the two concrete multiplayer
roles Werwolf and Vampire, replies "2" and "3" from moderator 5. -/
theorem role_counts_barrier_witness :
    ∃ s0 s1 s2,
      roleCountsNew (fun _ => .ok ()) c7Prev = .ok (s0, false) ∧
      s0.inner.role_messages = [roleWerwolf, roleVampire] ∧
      s0.inner.count_queue = [] ∧
      roleReplyTransition ⟨some (.Reply ⟨5, "2"⟩), 1⟩ c7Sub
          s0.inner.count_queue =
        (.Done (), c7Sub, [(roleWerwolf, 2)], true) ∧
      roleCountsTransition (fun _ => .ok c7Run) ⟨some .Notify, 1⟩
          (setQueue s0 [(roleWerwolf, 2)]) =
        (.NoTransition, s1) ∧
      s1.inner.role_messages = [roleVampire] ∧
      roleReplyTransition ⟨some (.Reply ⟨5, "3"⟩), 1⟩
          ⟨2, 20, 3, 1, [5], roleVampire⟩ s1.inner.count_queue =
        (.Done (), ⟨2, 20, 3, 1, [5], roleVampire⟩, [(roleVampire, 3)],
          true) ∧
      roleCountsTransition (fun _ => .ok c7Run) ⟨some .Notify, 1⟩
          (setQueue s1 [(roleVampire, 3)]) =
        (.Done c7Run, s2) ∧
      s2.inner.role_messages = [] :=
  role_counts_barrier roleWerwolf roleVampire c7Prev 2 3
    (fun _ => .ok c7Run) c7Run c7Sub ⟨2, 20, 3, 1, [5], roleVampire⟩
    ⟨5, "2"⟩ ⟨5, "3"⟩ ⟨some .Notify, 1⟩ ⟨some (.Reply ⟨5, "2"⟩), 1⟩
    ⟨some (.Reply ⟨5, "3"⟩), 1⟩
    rfl rfl (by decide) rfl (fun _ => rfl) rfl rfl (by decide) (by decide)
    (by decide) (by decide) rfl rfl rfl
